import Mathlib

/-!
Shallow embedding of the Business Insight Summary Agent
(`Data_Insights_Agent/app.py`) and proofs about its core pipeline:
schema probing, domain classification, metric analysis, the Finance and
Marketing rule engines, and narrative synthesis.

Numeric cell values are modelled as exact rationals (`ℚ`); pandas `NaN`
missing values are the explicit `Scalar.na` constructor; datetime cells
are `Scalar.temporal`.  Fallible code paths (Python expressions that can
raise, e.g. `abs()` of a `Timestamp`) are modelled with `Except Unit`.
-/

namespace InsightAgent

/-- Scalar cell value of a dataframe column: a number, a string, a
datetime (nanoseconds since epoch, kept exact as a rational), or a
missing value (`NaN`). -/
inductive Scalar where
  | num (q : ℚ)
  | text (s : String)
  | temporal (t : ℚ)
  | na
deriving DecidableEq

/-- A dataframe column is the ordered list of its cell values. -/
abbrev Column := List Scalar

/-- A dataframe: ordered, named columns (`pd.DataFrame`). -/
abbrev Dataset := List (String × Column)

/-- Numeric view of a cell: `some q` for a number, `none` otherwise. -/
def numVal : Scalar → Option ℚ
  | .num q => some q
  | _ => none

/-- Column dtype test used by `df.select_dtypes(include="number")`: a
column is numeric when every cell is a number or `NaN` (pandas numeric
dtypes carry no strings or datetimes). -/
def numericCol (c : Column) : Bool :=
  c.all fun v =>
    match v with
    | .num _ => true
    | .na => true
    | _ => false

/-- Embeds `series.dropna()` on a numeric column: the numeric cells in
order, missing values removed. -/
def dropnaNum (c : Column) : List ℚ := c.filterMap numVal

/-- Embeds `df[name]` guarded by `name in df.columns`: the first column
with the given (exact, case-sensitive) name, if any. -/
def lookup (df : Dataset) (name : String) : Option Column :=
  (df.find? fun p => p.1 == name).map Prod.snd

/-- Helper for `title`: the Boolean argument says whether the previous
character was alphabetic. -/
def titleCharAux : Bool → List Char → List Char
  | _, [] => []
  | prevAlpha, ch :: rest =>
    (if ch.isAlpha then (if prevAlpha then ch.toLower else ch.toUpper) else ch)
      :: titleCharAux ch.isAlpha rest

/-- Embeds Python `str.title()`: a letter is upper-cased when it does not
follow a letter and lower-cased otherwise. -/
def title (s : String) : String := String.mk (titleCharAux false s.data)

/-- Rounds a rational to the nearest integer, ties to even — the rounding
used by Python float formatting. -/
def roundHalfToEven (q : ℚ) : ℤ :=
  let fl := Int.floor q
  let frac := q - fl
  if frac < 1 / 2 then fl
  else if 1 / 2 < frac then fl + 1
  else if fl % 2 = 0 then fl else fl + 1

/-- Embeds the Python format spec `.1f` on an exact rational value: one
digit after the decimal point, round half to even. -/
def fmt1 (q : ℚ) : String :=
  let tenths := roundHalfToEven (q * 10)
  let sign := if tenths < 0 then "-" else ""
  let a := tenths.natAbs
  sign ++ toString (a / 10) ++ "." ++ toString (a % 10)

/-- Embeds Python `needle in hay` on strings: substring containment. -/
def strContains (hay needle : String) : Bool :=
  decide (needle.data <:+: hay.data)

/-- Embeds Python `str.lower()` (ASCII letters, which is all the source
ever lower-cases): each character lower-cased. -/
def lowerStr (s : String) : String := String.mk (s.data.map Char.toLower)

/-- Finance keyword list of `classify_domain`. -/
def finance_keywords : List String :=
  ["revenue", "sales", "profit", "margin", "cost", "expense", "ebitda"]

/-- Marketing keyword list of `classify_domain`. -/
def marketing_keywords : List String :=
  ["leads", "conversion", "ctr", "cac", "traffic", "churn", "retention"]

/-- Embeds `sum(any(k in col.lower() for k in keywords) for col in columns)`:
the number of columns whose lower-cased name contains at least one
keyword as a substring. -/
def keywordScore (keywords : List String) (columns : List String) : Nat :=
  columns.countP fun col => keywords.any fun k => strContains (lowerStr col) k

/-- Embeds `classify_domain` from `app.py`: Finance wins ties. -/
def classify_domain (columns : List String) : String :=
  if keywordScore finance_keywords columns ≥ keywordScore marketing_keywords columns then
    "Finance"
  else
    "Marketing"

/-- Embeds `growth_rate` from `app.py` at its dropna call sites, where the
series is a list of plain numbers: `NaN` (here `none`) when the first
value is zero, else `(last - first) / abs(first) * 100`. -/
def growth_rate : List ℚ → Option ℚ
  | [] => none
  | f :: rest =>
    if f = 0 then none
    else some ((rest.getLastD f - f) / |f| * 100)

/-- Embeds `growth_rate` from `app.py` at its raw call sites, where the
series is a column as stored (missing values and non-numeric dtypes
included).  `series.iloc[0]` on an empty column raises (`.error`);
`NaN` first or last values make the arithmetic produce `NaN`
(`.ok none`); a datetime or string endpoint makes the subtraction or the
`abs` call raise a `TypeError` (`.error`). -/
def growth_rate_raw (c : Column) : Except Unit (Option ℚ) :=
  match c with
  | [] => .error ()
  | v :: rest =>
    match v with
    | .num f =>
      if f = 0 then .ok none
      else
        match rest.getLastD v with
        | .num l => .ok (some ((l - f) / |f| * 100))
        | .na => .ok none
        | _ => .error ()
    | .na =>
      match rest.getLastD v with
      | .num _ => .ok none
      | .na => .ok none
      | _ => .error ()
    | _ => .error ()

/-- Arithmetic mean of a list of rationals (`series.mean()`). -/
def mean (s : List ℚ) : ℚ := s.sum / s.length

/-- Sum of squared deviations from the mean. -/
def sqDevSum (s : List ℚ) : ℚ := (s.map fun x => (x - mean s) ^ 2).sum

/-- Sample variance with `ddof = 1`: pandas `series.std()` squared.
`series.std()` divides by `n - 1`, not by `n`. -/
def sampleVar (s : List ℚ) : ℚ := sqDevSum s / ((s.length : ℚ) - 1)

/-- Embeds `detect_outliers` from `app.py`.  The source tests
`abs((x - mean) / std) > 2` with `std = series.std()` (sample standard
deviation, `ddof = 1`); since `std > 0` that test is equivalent to
`(x - mean)^2 > 4 * var`, which stays inside `ℚ`. -/
def detect_outliers (s : List ℚ) : List ℚ :=
  if sampleVar s = 0 then []
  else s.filter fun x => (x - mean s) ^ 2 > 4 * sampleVar s

/-- Population variance of a list of rationals (divides by `n`). -/
def popVar (s : List ℚ) : ℚ := sqDevSum s / (s.length : ℚ)

/-- Follows the spec's words for outlier detection (for comparison with
`detect_outliers`): population standard deviation, flag values with
`abs((x - mean) / std) > 2`, i.e. `(x - mean)^2 > 4 * popVar`. -/
def detect_outliers_popstd (s : List ℚ) : List ℚ :=
  if popVar s = 0 then []
  else s.filter fun x => (x - mean s) ^ 2 > 4 * popVar s

/-- Fixed sentence of the Finance margin-pressure rule. -/
def marginSentence : String := "Costs grew faster than revenue, leading to margin pressure."

/-- Volatility sentence of the Finance per-column outlier rule. -/
def volSentence (name : String) : String :=
  title name ++ " showed unusual spikes or drops, indicating volatility."

/-- Growth sentence of the Finance per-column rule for `growth > 5`. -/
def incSentence (name : String) (g : ℚ) : String :=
  title name ++ " increased by " ++ fmt1 g ++ "% over the period."

/-- Growth sentence of the Finance per-column rule for `growth < -5`;
the source interpolates `abs(growth)`. -/
def decSentence (name : String) (g : ℚ) : String :=
  title name ++ " declined by " ++ fmt1 |g| ++ "% over the period."

/-- Growth branch of the Finance per-column loop: the body guarded by
`if not np.isnan(growth)` in `finance_insights`. -/
def growthInsight (name : String) (s : List ℚ) : List String :=
  match growth_rate s with
  | none => []
  | some g =>
    if g > 5 then [incSentence name g]
    else if g < -5 then [decSentence name g]
    else []

/-- Outlier branch of the Finance per-column loop: the sentence emitted
when `len(detect_outliers(series)) > 0`. -/
def volInsight (name : String) (s : List ℚ) : List String :=
  if (detect_outliers s).length > 0 then [volSentence name] else []

/-- One iteration of the Finance per-column loop of `finance_insights`:
drop missing values, skip the column when fewer than two values remain,
otherwise append the growth insight (if any) then the volatility insight
(if any). -/
def financeColInsights (name : String) (col : Column) : List String :=
  let s := dropnaNum col
  if s.length < 2 then []
  else growthInsight name s ++ volInsight name s

/-- Embeds `df.select_dtypes(include="number")`: the numeric columns of
the dataframe, in column order. -/
def numericCols (df : Dataset) : Dataset := df.filter fun p => numericCol p.2

/-- Margin-pressure block of `finance_insights`: when both a `revenue`
and a `cost` column exist, compute both raw growth rates (revenue first,
as the source does) and emit the margin sentence when
`cost_growth > rev_growth`; a `NaN` growth rate makes the comparison
false. -/
def marginPressure (df : Dataset) : Except Unit (List String) :=
  match lookup df "revenue", lookup df "cost" with
  | some rev, some cost =>
    match growth_rate_raw rev with
    | .error e => .error e
    | .ok rg =>
      match growth_rate_raw cost with
      | .error e => .error e
      | .ok cg =>
        .ok
          (match cg, rg with
           | some c, some r => if c > r then [marginSentence] else []
           | _, _ => [])
  | _, _ => .ok []

/-- Embeds `finance_insights` from `app.py`: early return on zero numeric
columns, then the per-column loop, then the margin-pressure block. -/
def finance_insights (df : Dataset) (_date_col : Option String) :
    Except Unit (List String) :=
  let ncols := numericCols df
  if ncols.length = 0 then .ok []
  else
    match marginPressure df with
    | .error e => .error e
    | .ok m => .ok ((ncols.map fun p => financeColInsights p.1 p.2).flatten ++ m)

/-- Python `<` between two pandas scalars: defined between two numbers,
two strings or two datetimes; any comparison against `NaN` is false;
mixed-type comparisons raise `TypeError`. -/
def scalarLt : Scalar → Scalar → Except Unit Bool
  | .num a, .num b => .ok (decide (a < b))
  | .num _, .na => .ok false
  | .na, .num _ => .ok false
  | .na, .na => .ok false
  | .text a, .text b => .ok (decide (a < b))
  | .temporal a, .temporal b => .ok (decide (a < b))
  | _, _ => .error ()

/-- Conversion-funnel block of `marketing_insights`: when both `leads`
and `conversion` columns exist, compare the last raw `conversion` value
against the first. -/
def convInsight (df : Dataset) : Except Unit (List String) :=
  match lookup df "leads", lookup df "conversion" with
  | some _, some conv =>
    match conv with
    | [] => .error ()
    | s0 :: rest =>
      match scalarLt (rest.getLastD s0) s0 with
      | .error e => .error e
      | .ok b =>
        .ok (if b then ["Conversion rates declined, indicating funnel efficiency issues."] else [])
  | _, _ => .ok []

/-- Traffic block of `marketing_insights`: raw growth rate of the
`traffic` column against the ±10 thresholds. -/
def trafficInsight (df : Dataset) : Except Unit (List String) :=
  match lookup df "traffic" with
  | none => .ok []
  | some c =>
    match growth_rate_raw c with
    | .error e => .error e
    | .ok g? =>
      .ok
        (match g? with
         | some g =>
           if g > 10 then ["Website traffic increased strongly, suggesting effective acquisition efforts."]
           else if g < -10 then ["Website traffic declined significantly, requiring channel review."]
           else []
         | none => [])

/-- Churn block of `marketing_insights`: raw growth rate of the `churn`
column against the 5 threshold. -/
def churnInsight (df : Dataset) : Except Unit (List String) :=
  match lookup df "churn" with
  | none => .ok []
  | some c =>
    match growth_rate_raw c with
    | .error e => .error e
    | .ok g? =>
      .ok
        (match g? with
         | some g =>
           if g > 5 then ["Customer churn increased, particularly among sensitive segments."]
           else []
         | none => [])

/-- Embeds `marketing_insights` from `app.py`: the three blocks in source
order, insights concatenated. -/
def marketing_insights (df : Dataset) (_date_col : Option String) :
    Except Unit (List String) :=
  match convInsight df with
  | .error e => .error e
  | .ok i1 =>
    match trafficInsight df with
    | .error e => .error e
    | .ok i2 =>
      match churnInsight df with
      | .error e => .error e
      | .ok i3 => .ok (i1 ++ i2 ++ i3)

/-- Embeds `rewrite_insights` from `app.py`: fixed fallback on an empty
insight list, otherwise the insights joined by single spaces inside the
domain's fixed template (`Finance` template exactly when the domain
string is `"Finance"`). -/
def rewrite_insights (insights : List String) (domain : String) : String :=
  if insights = [] then "No significant patterns or changes were detected in the data."
  else
    let summary := String.intercalate " " insights
    if domain = "Finance" then
      "Financial performance analysis shows that " ++ summary ++
        " Overall results indicate key areas impacting profitability and cost structure."
    else
      "Marketing performance analysis indicates that " ++ summary ++
        " These trends highlight opportunities to improve acquisition efficiency and retention."

/-- Embeds `detect_date_column` from `app.py`, parametrised by the
behaviour of `pd.to_datetime` on a whole column (`coerce`, returning the
coerced column on success).  Walks the columns in order; the first
successful coercion is written back into the dataframe and its name
returned; a failed coercion leaves the column untouched and probing
continues.  Returns the detected name (or `none`) together with the
dataframe after probing. -/
def detect_date_column (coerce : Column → Option Column) :
    Dataset → Option String × Dataset
  | [] => (none, [])
  | (n, c) :: rest =>
    match coerce c with
    | some c2 => (some n, (n, c2) :: rest)
    | none =>
      let r := detect_date_column coerce rest
      (r.1, (n, c) :: r.2)

/-- Model of `pd.to_datetime` on an all-numeric column, used to
instantiate the probe: pandas coerces an integer/float column by reading
each value as nanoseconds since the epoch, so such a column succeeds and
becomes a datetime column; every other column shape is modelled as
failing.  This mirrors pandas' documented behaviour, which is external
library code, not part of the repository. -/
def pandasNumCoerce (c : Column) : Option Column :=
  if c.all (fun v => match v with | .num _ => true | _ => false) then
    some (c.map fun v => match v with | .num q => .temporal q | x => x)
  else none

/-- Embeds the UI pipeline of `app.py` (lines 161–180): probe for a date
column (mutating the dataframe), classify the domain from the column
names of the probed dataframe, run the domain's rule set on the probed
dataframe, and synthesise the narrative. -/
def run_pipeline (coerce : Column → Option Column) (df : Dataset) :
    Except Unit String :=
  let probed := detect_date_column coerce df
  let df2 := probed.2
  let domain := classify_domain (df2.map Prod.fst)
  match (if domain = "Finance" then finance_insights df2 probed.1 else marketing_insights df2 probed.1) with
  | .error e => .error e
  | .ok insights => .ok (rewrite_insights insights domain)

/-- First non-missing numeric value of a column, in column order. -/
def firstNonMissing (c : Column) : Option ℚ := c.findSome? numVal

/-- Last non-missing numeric value of a column, in column order. -/
def lastNonMissing (c : Column) : Option ℚ := c.reverse.findSome? numVal

/-- Dataset of end-to-end scenario 1: `revenue=[100,80]`, `cost=[50,70]`. -/
def dfC1 : Dataset :=
  [("revenue", [.num 100, .num 80]), ("cost", [.num 50, .num 70])]

/-- Dataset family with a numeric first column `id` holding arbitrary
values and a `revenue` column `[100, 200]`. -/
def dfC10 (a b : ℚ) : Dataset :=
  [("id", [.num a, .num b]), ("revenue", [.num 100, .num 200])]

/-- Series on which sample-std and population-std outlier detection
disagree: the population z-score of `10` exceeds 2 but its sample
z-score does not. -/
def c2CexSeries : List ℚ := [0, 0, 0, 0, 3, 10]

/-- Series whose spike `10` is flagged by the source's sample-std test. -/
def c2WitSeries : List ℚ := [0, 0, 0, 0, 0, 0, 0, 10]

/-- Column with a leading missing value, then `100, 80`. -/
def colC3w : Column := [.na, .num 100, .num 80]

/-- Numeric column with only one non-missing value. -/
def colC4short : Column := [.num 7, .na]

/-- Numeric column whose non-missing values are `100, 80`. -/
def colC4w : Column := [.num 100, .na, .num 80]

/-- Concrete coercion for exercising the schema prober: succeeds exactly
on the one-cell column `["2024-01-01"]`. -/
def c9Coerce : Column → Option Column := fun c =>
  if c = [Scalar.text "2024-01-01"] then some [Scalar.temporal 0] else none

/-- Dataset whose second column is the only date-coercible one. -/
def dfC9 : Dataset :=
  [("amount", [.num 5]), ("day", [.text "2024-01-01"])]

/-- Head of the dropped-missing-values series is the first non-missing
value of the column. -/
theorem dropnaNum_head? (c : Column) : (dropnaNum c).head? = firstNonMissing c :=
  List.filterMap_head? numVal c

/-- Last element of the dropped-missing-values series is the last
non-missing value of the column. -/
theorem dropnaNum_getLast? (c : Column) :
    (dropnaNum c).getLast? = lastNonMissing c :=
  List.filterMap_getLast? numVal c

/-- The last element of a nonempty list, phrased through `getLastD` as
the growth-rate embedding consumes it. -/
theorem getLast?_cons_getLastD (a : α) (l : List α) :
    (a :: l).getLast? = some (l.getLastD a) := by
  induction l generalizing a with
  | nil => rfl
  | cons b t ih =>
    rw [List.getLast?_cons_cons, ih b, List.getLastD_cons]

/-- On a nonempty numeric-dtype column, the raw growth-rate computation
never raises: every endpoint is a number or `NaN`. -/
theorem growth_rate_raw_numeric_ok (c : Column) (hn : numericCol c = true)
    (hne : c ≠ []) : ∃ g, growth_rate_raw c = .ok g := by
  match c, hne with
  | v :: rest, _ =>
    have hall := List.all_eq_true.mp hn
    have hv := hall v (List.mem_cons_self v rest)
    have hlast := hall (rest.getLastD v) (List.getLastD_mem_cons rest v)
    rw [List.getLastD_eq_getLast?] at hlast
    cases v with
    | num f =>
      by_cases hf : f = 0
      · exact ⟨none, by simp [growth_rate_raw, hf]⟩
      · cases hL : rest.getLast?.getD (Scalar.num f) with
        | num l => exact ⟨some ((l - f) / |f| * 100), by simp [growth_rate_raw, hf, hL]⟩
        | na => exact ⟨none, by simp [growth_rate_raw, hf, hL]⟩
        | text s => rw [hL] at hlast; simp at hlast
        | temporal t => rw [hL] at hlast; simp at hlast
    | na =>
      cases hL : rest.getLast?.getD Scalar.na with
      | num l => exact ⟨none, by simp [growth_rate_raw, hL]⟩
      | na => exact ⟨none, by simp [growth_rate_raw, hL]⟩
      | text s => rw [hL] at hlast; simp at hlast
      | temporal t => rw [hL] at hlast; simp at hlast
    | text s => simp at hv
    | temporal t => simp at hv

/-- C6: the Narrative Synthesizer returns the fixed fallback sentence on
an empty insight list; a non-empty list is joined with single spaces in
order and wrapped in the fixed Finance template when the domain is
`"Finance"` and in the fixed Marketing template otherwise. -/
theorem c6_rewrite_insights (l : List String) (d : String) :
    rewrite_insights [] d = "No significant patterns or changes were detected in the data." ∧
    (l ≠ [] → rewrite_insights l "Finance" =
      "Financial performance analysis shows that " ++ String.intercalate " " l ++
        " Overall results indicate key areas impacting profitability and cost structure.") ∧
    (l ≠ [] → d ≠ "Finance" → rewrite_insights l d =
      "Marketing performance analysis indicates that " ++ String.intercalate " " l ++
        " These trends highlight opportunities to improve acquisition efficiency and retention.") := by
  refine ⟨rfl, fun h => ?_, fun h hd => ?_⟩
  · simp [rewrite_insights, h]
  · simp [rewrite_insights, h, hd]

/-- Witness for C6 at a concrete two-sentence list and the Marketing
domain tag. -/
theorem c6_rewrite_insights_witness :
    rewrite_insights ["A.", "B."] "Marketing" =
      "Marketing performance analysis indicates that A. B. These trends highlight opportunities to improve acquisition efficiency and retention." :=
  (c6_rewrite_insights ["A.", "B."] "Marketing").2.2 (by decide) (by decide)

/-- C7: domain classification is order-independent — permuting the
column names changes neither keyword score nor the resulting domain. -/
theorem c7_classify_domain_perm (l1 l2 : List String) (h : l1.Perm l2) :
    keywordScore finance_keywords l1 = keywordScore finance_keywords l2 ∧
    keywordScore marketing_keywords l1 = keywordScore marketing_keywords l2 ∧
    classify_domain l1 = classify_domain l2 := by
  have hf : keywordScore finance_keywords l1 = keywordScore finance_keywords l2 :=
    h.countP_eq _
  have hm : keywordScore marketing_keywords l1 = keywordScore marketing_keywords l2 :=
    h.countP_eq _
  refine ⟨hf, hm, ?_⟩
  unfold classify_domain
  rw [hf, hm]

/-- Witness for C7 at the concrete transposition of `["cost","leads"]`. -/
theorem c7_classify_domain_perm_witness :
    keywordScore finance_keywords ["cost", "leads"] =
        keywordScore finance_keywords ["leads", "cost"] ∧
    keywordScore marketing_keywords ["cost", "leads"] =
        keywordScore marketing_keywords ["leads", "cost"] ∧
    classify_domain ["cost", "leads"] = classify_domain ["leads", "cost"] :=
  c7_classify_domain_perm ["cost", "leads"] ["leads", "cost"]
    (List.Perm.swap "leads" "cost" [])

/-- C8: the classifier returns `"Finance"` exactly when the Finance score
is at least the Marketing score and `"Marketing"` exactly when it is
strictly smaller; the result is always one of the two; and the
zero-match dataset `["id","name"]` scores 0–0 and classifies Finance. -/
theorem c8_classify_domain_tiebreak (cols : List String) :
    (classify_domain cols = "Finance" ↔
      keywordScore marketing_keywords cols ≤ keywordScore finance_keywords cols) ∧
    (classify_domain cols = "Marketing" ↔
      keywordScore finance_keywords cols < keywordScore marketing_keywords cols) ∧
    (classify_domain cols = "Finance" ∨ classify_domain cols = "Marketing") ∧
    keywordScore finance_keywords ["id", "name"] = 0 ∧
    keywordScore marketing_keywords ["id", "name"] = 0 ∧
    classify_domain ["id", "name"] = "Finance" := by
  refine ⟨?_, ?_, ?_, by decide, by decide, by decide⟩
  · by_cases h : keywordScore marketing_keywords cols ≤ keywordScore finance_keywords cols
    · have : classify_domain cols = "Finance" := by unfold classify_domain; exact if_pos h
      exact this ▸ iff_of_true rfl h
    · have : classify_domain cols = "Marketing" := by unfold classify_domain; exact if_neg h
      rw [this]
      exact iff_of_false (by decide) h
  · by_cases h : keywordScore marketing_keywords cols ≤ keywordScore finance_keywords cols
    · have : classify_domain cols = "Finance" := by unfold classify_domain; exact if_pos h
      rw [this]
      exact iff_of_false (by decide) (not_lt.mpr h)
    · have : classify_domain cols = "Marketing" := by unfold classify_domain; exact if_neg h
      exact this ▸ iff_of_true rfl (not_le.mp h)
  · by_cases h : keywordScore marketing_keywords cols ≤ keywordScore finance_keywords cols
    · exact Or.inl (by unfold classify_domain; exact if_pos h)
    · exact Or.inr (by unfold classify_domain; exact if_neg h)

/-- C1 (evaluated at the claimed dataset): with the pandas behaviour that
integer columns coerce to datetimes, the schema probe converts the
`revenue` column to a datetime column, and the pipeline then raises
(`abs()` of a timestamp inside `growth_rate` during the margin-pressure
rule) instead of producing the claimed narrative; if the probe's
coercion failed on every column (second conjunct), the pipeline would
return exactly the narrative the claim states, which is the intended
behaviour the code misses. -/
theorem c1_end_to_end_scenario1 :
    run_pipeline pandasNumCoerce dfC1 = .error () ∧
    run_pipeline (fun _ => none) dfC1 =
      .ok ("Financial performance analysis shows that Revenue declined by 20.0% over the period. Cost increased by 40.0% over the period. Costs grew faster than revenue, leading to margin pressure. Overall results indicate key areas impacting profitability and cost structure.") := by
  refine ⟨rfl, ?_⟩
  have hg1 : growth_rate [(100:ℚ), 80] = some (-20) := by simp [growth_rate]; norm_num
  have hg2 : growth_rate [(50:ℚ), 70] = some 40 := by simp [growth_rate]; norm_num
  have hr1 : growth_rate_raw [Scalar.num 100, Scalar.num 80] = .ok (some (-20)) := by
    simp [growth_rate_raw]; norm_num
  have hr2 : growth_rate_raw [Scalar.num 50, Scalar.num 70] = .ok (some 40) := by
    simp [growth_rate_raw]; norm_num
  have ho1 : detect_outliers [(100:ℚ), 80] = [] := by
    norm_num [detect_outliers, sampleVar, sqDevSum, mean, List.filter]
  have ho2 : detect_outliers [(50:ℚ), 70] = [] := by
    norm_num [detect_outliers, sampleVar, sqDevSum, mean, List.filter]
  have hf1 : fmt1 |(-20 : ℚ)| = "20.0" := by norm_num [fmt1, roundHalfToEven]; rfl
  have hf2 : fmt1 (40 : ℚ) = "40.0" := by norm_num [fmt1, roundHalfToEven]; rfl
  have hd1 : decSentence "revenue" (-20) = "Revenue declined by 20.0% over the period." := by
    rw [decSentence, hf1]; rfl
  have hd2 : incSentence "cost" 40 = "Cost increased by 40.0% over the period." := by
    rw [incSentence, hf2]; rfl
  have hdn1 : dropnaNum [Scalar.num 100, Scalar.num 80] = [(100:ℚ), 80] := rfl
  have hdn2 : dropnaNum [Scalar.num 50, Scalar.num 70] = [(50:ℚ), 70] := rfl
  have hcol1 : financeColInsights "revenue" [Scalar.num 100, Scalar.num 80] =
      ["Revenue declined by 20.0% over the period."] := by
    rw [financeColInsights]
    norm_num [hdn1, hg1, growthInsight, volInsight, ho1, hd1]
  have hcol2 : financeColInsights "cost" [Scalar.num 50, Scalar.num 70] =
      ["Cost increased by 40.0% over the period."] := by
    rw [financeColInsights]
    norm_num [hdn2, hg2, growthInsight, volInsight, ho2, hd2]
  have hmp : marginPressure
      [("revenue", [Scalar.num 100, Scalar.num 80]), ("cost", [Scalar.num 50, Scalar.num 70])] =
      .ok [marginSentence] := by
    have hlr : lookup [("revenue", [Scalar.num 100, Scalar.num 80]), ("cost", [Scalar.num 50, Scalar.num 70])] "revenue" =
        some [Scalar.num 100, Scalar.num 80] := rfl
    have hlc : lookup [("revenue", [Scalar.num 100, Scalar.num 80]), ("cost", [Scalar.num 50, Scalar.num 70])] "cost" =
        some [Scalar.num 50, Scalar.num 70] := rfl
    rw [marginPressure, hlr, hlc]
    simp only [hr1, hr2]
    norm_num
  have hfi : finance_insights
      [("revenue", [Scalar.num 100, Scalar.num 80]), ("cost", [Scalar.num 50, Scalar.num 70])] none =
      .ok ["Revenue declined by 20.0% over the period.", "Cost increased by 40.0% over the period.",
        marginSentence] := by
    have hnc : numericCols [("revenue", [Scalar.num 100, Scalar.num 80]), ("cost", [Scalar.num 50, Scalar.num 70])] =
        [("revenue", [Scalar.num 100, Scalar.num 80]), ("cost", [Scalar.num 50, Scalar.num 70])] := rfl
    simp only [finance_insights, hnc, hmp, List.length_cons, List.length_nil, List.map, hcol1, hcol2]
    norm_num
  have hprobe : detect_date_column (fun _ => none) dfC1 = (none, dfC1) := rfl
  have hcd : classify_domain ["revenue", "cost"] = "Finance" := by decide
  rw [run_pipeline, hprobe]
  simp only [dfC1, List.map, hcd]
  simp only [hfi]
  rfl

/-- C2 counterexample: on the series `[0,0,0,0,3,10]` the source's
outlier detection (sample standard deviation, `ddof = 1`) flags nothing,
while the spec's population-standard-deviation rule flags `10`, so the
code does not flag exactly the values whose population z-score exceeds
2 in magnitude. -/
theorem c2_outliers_popstd_counterexample :
    detect_outliers c2CexSeries = [] ∧
    detect_outliers_popstd c2CexSeries = [10] ∧
    detect_outliers c2CexSeries ≠ detect_outliers_popstd c2CexSeries := by
  have h1 : detect_outliers c2CexSeries = [] := by
    norm_num [detect_outliers, sampleVar, sqDevSum, mean, c2CexSeries, List.filter]
  have h2 : detect_outliers_popstd c2CexSeries = [10] := by
    norm_num [detect_outliers_popstd, popVar, sqDevSum, mean, c2CexSeries, List.filter]
  exact ⟨h1, h2, by rw [h1, h2]; simp⟩

/-- C2 as amended: for a column with at least 2 values, outlier
detection returns the empty set when the sample variance (`ddof = 1`,
pandas `series.std()`) is zero, and otherwise flags exactly the values
whose sample z-score exceeds 2 in magnitude, i.e. with
`(x - mean)^2 > 4 * sampleVar`. -/
theorem c2_outliers_sample_std (s : List ℚ) (_h2 : 2 ≤ s.length) :
    (sampleVar s = 0 → detect_outliers s = []) ∧
    ∀ x, x ∈ detect_outliers s ↔
      x ∈ s ∧ sampleVar s ≠ 0 ∧ (x - mean s) ^ 2 > 4 * sampleVar s := by
  constructor
  · intro h0
    simp [detect_outliers, h0]
  · intro x
    by_cases h0 : sampleVar s = 0
    · simp [detect_outliers, h0]
    · simp [detect_outliers, h0, List.mem_filter]

/-- Witness for C2's amended statement at the series `[0,…,0,10]`, whose
spike is flagged. -/
theorem c2_outliers_sample_std_witness :
    (10:ℚ) ∈ detect_outliers c2WitSeries ↔
      (10:ℚ) ∈ c2WitSeries ∧ sampleVar c2WitSeries ≠ 0 ∧
        ((10:ℚ) - mean c2WitSeries) ^ 2 > 4 * sampleVar c2WitSeries :=
  (c2_outliers_sample_std c2WitSeries (by simp [c2WitSeries])).2 10

/-- C10: on a dataset whose first column `id` is numeric (any two
values), the schema probe coerces that column to a datetime column
(pandas `to_datetime` succeeds on integers), and the Finance rules,
which select only numeric-dtype columns, then never emit any insight
for it: the narrative mentions only the `revenue` column, whatever the
`id` values were. -/
theorem c10_probe_eats_numeric_column (a b : ℚ) :
    (detect_date_column pandasNumCoerce (dfC10 a b)).1 = some "id" ∧
    (detect_date_column pandasNumCoerce (dfC10 a b)).2 =
      [("id", [.temporal a, .temporal b]), ("revenue", [.num 100, .num 200])] ∧
    run_pipeline pandasNumCoerce (dfC10 a b) =
      .ok ("Financial performance analysis shows that Revenue increased by 100.0% over the period. Overall results indicate key areas impacting profitability and cost structure.") := by
  have hprobe : detect_date_column pandasNumCoerce (dfC10 a b) =
      (some "id", [("id", [.temporal a, .temporal b]), ("revenue", [.num 100, .num 200])]) := rfl
  refine ⟨by rw [hprobe], by rw [hprobe], ?_⟩
  have hg : growth_rate [(100:ℚ), 200] = some 100 := by simp [growth_rate]; norm_num
  have ho : detect_outliers [(100:ℚ), 200] = [] := by
    norm_num [detect_outliers, sampleVar, sqDevSum, mean, List.filter]
  have hf : fmt1 (100 : ℚ) = "100.0" := by norm_num [fmt1, roundHalfToEven]; rfl
  have hinc : incSentence "revenue" 100 = "Revenue increased by 100.0% over the period." := by
    rw [incSentence, hf]; rfl
  have hdn : dropnaNum [Scalar.num 100, Scalar.num 200] = [(100:ℚ), 200] := rfl
  have hcol : financeColInsights "revenue" [Scalar.num 100, Scalar.num 200] =
      ["Revenue increased by 100.0% over the period."] := by
    rw [financeColInsights]
    norm_num [hdn, hg, growthInsight, volInsight, ho, hinc]
  have hmp : marginPressure
      [("id", [Scalar.temporal a, Scalar.temporal b]), ("revenue", [.num 100, .num 200])] =
      .ok [] := rfl
  have hfi : finance_insights
      [("id", [Scalar.temporal a, Scalar.temporal b]), ("revenue", [.num 100, .num 200])] (some "id") =
      .ok ["Revenue increased by 100.0% over the period."] := by
    have hnc : numericCols
        [("id", [Scalar.temporal a, Scalar.temporal b]), ("revenue", [.num 100, .num 200])] =
        [("revenue", [Scalar.num 100, Scalar.num 200])] := rfl
    simp only [finance_insights, hnc, hmp, List.length_cons, List.length_nil, List.map, hcol]
    norm_num
  rw [run_pipeline, hprobe]
  simp only [List.map, hfi]
  rfl

/-- C3: when the first non-missing value `f` of a column is nonzero, the
growth rate of the dropped-missing series is `(l - f) / abs f * 100`
with `l` the last non-missing value, and it is `none` when `f = 0`; a
`none` growth rate never emits a growth sentence for the column (the
column contributes at most its volatility sentence), with no error
path. -/
theorem c3_growth_rate_spec (name : String) (col : Column) :
    (∀ f l, firstNonMissing col = some f → lastNonMissing col = some l →
      growth_rate (dropnaNum col) =
        if f = 0 then none else some ((l - f) / |f| * 100)) ∧
    (growth_rate (dropnaNum col) = none →
      financeColInsights name col = [] ∨
        financeColInsights name col = [volSentence name]) := by
  constructor
  · intro f l hf hl
    have hh : (dropnaNum col).head? = some f := by rw [dropnaNum_head?]; exact hf
    have hL : (dropnaNum col).getLast? = some l := by rw [dropnaNum_getLast?]; exact hl
    cases hd : dropnaNum col with
    | nil => rw [hd] at hh; simp at hh
    | cons a t =>
      rw [hd] at hh hL
      simp only [List.head?_cons, Option.some.injEq] at hh
      subst hh
      rw [getLast?_cons_getLastD, Option.some.injEq] at hL
      rw [growth_rate, hL]
  · intro hg
    simp only [financeColInsights]
    by_cases hlen : (dropnaNum col).length < 2
    · left
      simp [hlen]
    · simp only [hlen, if_false, growthInsight, hg, List.nil_append]
      rw [volInsight]
      by_cases ho : 0 < (detect_outliers (dropnaNum col)).length
      · right
        simp [ho]
      · left
        simp [ho]

/-- Witness for C3 at a column with a leading missing value: the first
non-missing value 100 is nonzero and the growth rate is computed from
the endpoints 100 and 80. -/
theorem c3_growth_rate_spec_witness :
    growth_rate (dropnaNum colC3w) =
      if (100:ℚ) = 0 then none else some (((80:ℚ) - 100) / |(100:ℚ)| * 100) :=
  (c3_growth_rate_spec "revenue" colC3w).1 100 80 rfl rfl

/-- C4: a column whose dropped-missing series has fewer than 2 values
contributes no Finance insight at all; otherwise its insights are the
growth sentence followed by the volatility sentence; the growth branch
emits the increased sentence exactly when growth exceeds 5, the
declined sentence exactly when growth is below −5, one sentence at
most, and nothing when the growth rate is null or lies in `[-5, 5]`. -/
theorem c4_finance_growth_thresholds (name : String) (col : Column) :
    ((dropnaNum col).length < 2 → financeColInsights name col = []) ∧
    (2 ≤ (dropnaNum col).length →
      financeColInsights name col =
        growthInsight name (dropnaNum col) ++ volInsight name (dropnaNum col)) ∧
    (growth_rate (dropnaNum col) = none → growthInsight name (dropnaNum col) = []) ∧
    ∀ g, growth_rate (dropnaNum col) = some g →
      (5 < g → growthInsight name (dropnaNum col) = [incSentence name g]) ∧
      (g < -5 → growthInsight name (dropnaNum col) = [decSentence name g]) ∧
      (-5 ≤ g → g ≤ 5 → growthInsight name (dropnaNum col) = []) := by
  refine ⟨?_, ?_, ?_, ?_⟩
  · intro h
    simp [financeColInsights, h]
  · intro h
    simp [financeColInsights, not_lt.2 h]
  · intro h
    simp [growthInsight, h]
  · intro g hg
    refine ⟨?_, ?_, ?_⟩
    · intro h5
      simp [growthInsight, hg, h5]
    · intro h5
      have hn : ¬ 5 < g := by linarith
      simp [growthInsight, hg, hn, h5]
    · intro ha hb
      have hn : ¬ 5 < g := not_lt.2 hb
      have hn2 : ¬ g < -5 := not_lt.2 ha
      simp [growthInsight, hg, hn, hn2]

/-- Witness for C4: a column with a single non-missing value is skipped
entirely, and a column declining by 20% emits exactly the declined
sentence. -/
theorem c4_finance_growth_thresholds_witness :
    financeColInsights "sales" colC4short = [] ∧
    growthInsight "revenue" (dropnaNum colC4w) = [decSentence "revenue" (-20)] := by
  constructor
  · exact (c4_finance_growth_thresholds "sales" colC4short).1 (by decide)
  · have hg : growth_rate (dropnaNum colC4w) = some (-20) := by
      have hdn : dropnaNum colC4w = [(100:ℚ), 80] := rfl
      rw [hdn]
      simp [growth_rate]
      norm_num
    exact (((c4_finance_growth_thresholds "revenue" colC4w).2.2.2 (-20) hg).2.1 (by norm_num))

/-- C5: the margin-pressure rule emits its sentence exactly when both a
`revenue` and a `cost` column exist and both raw growth rates are
defined with cost's strictly exceeding revenue's; moreover, whenever
both columns exist, are numeric-dtyped and nonempty, the rule cannot
raise and emits either nothing or exactly the margin sentence (an
undefined growth rate degrades the comparison to false). -/
theorem c5_margin_pressure_rule (df : Dataset) :
    (marginPressure df = .ok [marginSentence] ↔
      ∃ rc cc rg cg, lookup df "revenue" = some rc ∧ lookup df "cost" = some cc ∧
        growth_rate_raw rc = .ok (some rg) ∧ growth_rate_raw cc = .ok (some cg) ∧
        rg < cg) ∧
    ∀ rc cc, lookup df "revenue" = some rc → lookup df "cost" = some cc →
      numericCol rc = true → rc ≠ [] → numericCol cc = true → cc ≠ [] →
      (∀ e, marginPressure df ≠ .error e) ∧
      (marginPressure df = .ok [] ∨ marginPressure df = .ok [marginSentence]) := by
  constructor
  · constructor
    · intro h
      rw [marginPressure] at h
      split at h
      case _ rev cost heq1 heq2 =>
        split at h
        case _ e heq3 =>
          simp at h
        case _ rg? heq3 =>
          split at h
          case _ e heq4 =>
            simp at h
          case _ cg? heq4 =>
            simp only [Except.ok.injEq] at h
            split at h
            case _ c r =>
              by_cases hlt : r < c
              · exact ⟨rev, cost, r, c, heq1, heq2, heq3, heq4, hlt⟩
              · rw [if_neg hlt] at h
                simp [marginSentence] at h
            case _ x y hne =>
              simp [marginSentence] at h
      case _ x y hne =>
        simp [marginSentence] at h
    · rintro ⟨rc, cc, rg, cg, h1, h2, h3, h4, h5⟩
      rw [marginPressure, h1, h2]
      simp only [h3, h4]
      simp [h5]
  · intro rc cc h1 h2 hn1 hne1 hn2 hne2
    obtain ⟨rg?, hrg⟩ := growth_rate_raw_numeric_ok rc hn1 hne1
    obtain ⟨cg?, hcg⟩ := growth_rate_raw_numeric_ok cc hn2 hne2
    rw [marginPressure, h1, h2]
    simp only [hrg, hcg]
    constructor
    · intro e
      cases cg? <;> cases rg? <;> simp
    · cases cg? with
      | none => left; rfl
      | some c =>
        cases rg? with
        | none => left; rfl
        | some r =>
          by_cases hlt : r < c
          · right
            simp [hlt]
          · left
            simp [hlt]

/-- Witness for C5 at the scenario-1 dataset, whose revenue and cost
columns are numeric and nonempty. -/
theorem c5_margin_pressure_rule_witness :
    marginPressure dfC1 = .ok [] ∨ marginPressure dfC1 = .ok [marginSentence] :=
  ((c5_margin_pressure_rule dfC1).2 [Scalar.num 100, Scalar.num 80]
    [Scalar.num 50, Scalar.num 70] rfl rfl rfl (by decide) rfl (by decide)).2

/-- C9: the schema prober returns `none` exactly when no column coerces,
leaving the dataframe untouched; and when it returns a column name, the
dataframe splits as `pre ++ (n, c) :: suf` where every column of `pre`
fails to coerce, `c` is the first column that coerces, and the probed
dataframe is identical except that `c` is replaced by its coerced
version — names, order and every other column unchanged. -/
theorem c9_detect_date_column_frame (coerce : Column → Option Column)
    (df : Dataset) :
    ((detect_date_column coerce df).1 = none →
      (detect_date_column coerce df).2 = df ∧ ∀ p ∈ df, coerce p.2 = none) ∧
    ∀ n, (detect_date_column coerce df).1 = some n →
      ∃ pre c c2 suf, df = pre ++ (n, c) :: suf ∧
        (∀ p ∈ pre, coerce p.2 = none) ∧
        coerce c = some c2 ∧
        (detect_date_column coerce df).2 = pre ++ (n, c2) :: suf := by
  induction df with
  | nil =>
    constructor
    · intro _
      exact ⟨rfl, by simp⟩
    · intro n h
      simp [detect_date_column] at h
  | cons hd tl ih =>
    obtain ⟨n0, c0⟩ := hd
    cases hco : coerce c0 with
    | some c2 =>
      constructor
      · intro h
        simp [detect_date_column, hco] at h
      · intro n h
        simp only [detect_date_column, hco] at h
        simp only [Option.some.injEq] at h
        subst h
        refine ⟨[], c0, c2, tl, by simp, by simp, hco, ?_⟩
        simp [detect_date_column, hco]
    | none =>
      have hrec : detect_date_column coerce ((n0, c0) :: tl) =
          ((detect_date_column coerce tl).1,
            (n0, c0) :: (detect_date_column coerce tl).2) := by
        simp [detect_date_column, hco]
      constructor
      · intro h
        rw [hrec] at h
        obtain ⟨e1, e2⟩ := ih.1 h
        constructor
        · rw [hrec, e1]
        · intro p hp
          rcases List.mem_cons.mp hp with h' | h'
          · rw [h']
            exact hco
          · exact e2 p h'
      · intro n h
        rw [hrec] at h
        obtain ⟨pre, c, c2, suf, e1, e2, e3, e4⟩ := ih.2 n h
        refine ⟨(n0, c0) :: pre, c, c2, suf, ?_, ?_, e3, ?_⟩
        · simp [e1]
        · intro p hp
          rcases List.mem_cons.mp hp with h' | h'
          · rw [h']
            exact hco
          · exact e2 p h'
        · rw [hrec]
          simp [e4]

/-- Witness for C9 at a two-column dataframe whose second column is the
only coercible one: the prober replaces exactly that column. -/
theorem c9_detect_date_column_frame_witness :
    ∃ pre c c2 suf, dfC9 = pre ++ ("day", c) :: suf ∧
      (∀ p ∈ pre, c9Coerce p.2 = none) ∧
      c9Coerce c = some c2 ∧
      (detect_date_column c9Coerce dfC9).2 = pre ++ ("day", c2) :: suf :=
  (c9_detect_date_column_frame c9Coerce dfC9).2 "day" rfl

end InsightAgent
